import Mathlib

/-!
Shallow embedding of two source files of the inasafe repository:

* `safe/postprocessors/gender_postprocessor.py` (the `GenderPostprocessor`
  class with its `setup` / `process` / `clear` lifecycle and its four
  indicator calculations), and
* `safe/common/qgis_vector_tools.py` (`points_to_rectangles`,
  `union_geometry` and `split_by_polygon`).

Python floats are modelled as exact rationals (every constant involved is
far from a rounding tie, so the integer indicator values agree), Python
`None` becomes `Option`, Python exceptions become `Except`, and the QGIS
geometry engine — an external collaborator of the repository — is a
parameter (`GeometryEngine`, `UnionEngine`) instantiated with a concrete
finite cell model for concrete runs.
-/

set_option autoImplicit false

deriving instance DecidableEq for Except

/-! ## Gender postprocessor (`safe/postprocessors/gender_postprocessor.py`) -/

/-- Python 2 `int(round(x))` on a nonnegative-or-negative rational:
`round` rounds half away from zero, `int` then truncates the (already
integral) float. -/
def python_round (q : ℚ) : Int :=
  if 0 ≤ q then ⌊q + 1/2⌋ else ⌈q - 1/2⌉

/-- Model of `safe.common.utilities.ugettext`: the translation function is
the identity in the default locale. -/
def tr (s : String) : String := s

/-- One entry of the result sink: name, integer value, optional metadata
description (the only metadata the gender postprocessor ever passes). -/
structure IndicatorResult where
  name : String
  value : Int
  metadata : Option String
  deriving DecidableEq, Repr

/-- Errors of the postprocessor lifecycle. Modelled from the spec: the
abstract base class `AbstractPostprocessor` is not part of the excerpt;
per the spec its `_raise_error` helper signals a sequencing error, and a
missing dictionary key in Python raises `KeyError`. -/
inductive PostProcessorError where
  | sequencing : String → PostProcessorError
  | keyError : String → PostProcessorError
  deriving DecidableEq, Repr

/-- State of a `GenderPostprocessor`: the two scalars of the concrete
class plus the result sink. Modelled from the spec: the result sink
(`_append_result` of the abstract base) is an accumulated list of
`(name, value, metadata)` indicators; the base lifecycle methods
`AbstractPostprocessor.setup/process/clear` themselves are no-ops on this
state. -/
structure GenderPostprocessor where
  population_total : Option ℚ
  female_ratio : Option ℚ
  results : List IndicatorResult
  deriving DecidableEq, Repr

/-- `GenderPostprocessor.__init__`: both scalars start as `None`, the
result sink empty. -/
def GenderPostprocessor.init : GenderPostprocessor :=
  { population_total := none, female_ratio := none, results := [] }

/-- Python dictionary lookup `params[key]` over an association list;
`none` models a missing key (a `KeyError` at the call site). -/
def dict_get (params : List (String × ℚ)) (key : String) : Option ℚ :=
  match params with
  | [] => none
  | kv :: rest => if kv.1 = key then some kv.2 else dict_get rest key

/-- `AbstractPostprocessor._append_result(name, result, metadata)`.
Modelled from the spec: appends one `(name, value, metadata)` indicator to
the accumulated results list. -/
def _append_result (p : GenderPostprocessor) (name : String) (value : Int)
    (metadata : Option String) : GenderPostprocessor :=
  { p with results := p.results ++ [⟨name, value, metadata⟩] }

/-- `GenderPostprocessor._calculate_total`: `int(round(population_total))`. -/
def _calculate_total (pt : ℚ) : Int :=
  python_round pt

/-- `GenderPostprocessor._calculate_females`:
`int(round(population_total * female_ratio))`. -/
def _calculate_females (pt fr : ℚ) : Int :=
  python_round (pt * fr)

/-- `GenderPostprocessor._calculate_weekly_hygene_packs`:
`int(round(population_total * female_ratio * 0.7937 * (7 / 7)))`; in
Python 2 `7 / 7` is integer division and equals `1`. -/
def _calculate_weekly_hygene_packs (pt fr : ℚ) : Int :=
  python_round (pt * fr * (7937/10000) * (((7:ℤ)/7 : ℤ) : ℚ))

/-- `GenderPostprocessor._calculate_weekly_increased_calories`: the
lactating and pregnant kilogram amounts are summed exactly, then rounded
once. -/
def _calculate_weekly_increased_calories (pt fr : ℚ) : Int :=
  python_round (pt * fr * 2 * (33782/1000000) + pt * fr * 2 * (1281/100000))

/-- `GenderPostprocessor.setup(params)`: the base call is a no-op, then a
sequencing error is raised unless both scalars are null, then both scalars
are read from the params dictionary and stored verbatim. -/
def GenderPostprocessor.setup (p : GenderPostprocessor)
    (params : List (String × ℚ)) : Except PostProcessorError GenderPostprocessor :=
  if p.population_total ≠ none ∨ p.female_ratio ≠ none then
    .error (.sequencing "clear needs to be called before setup")
  else
    match dict_get params "population_total" with
    | none => .error (.keyError "population_total")
    | some pt =>
      match dict_get params "female_ratio" with
      | none => .error (.keyError "female_ratio")
      | some fr =>
        .ok { p with population_total := some pt, female_ratio := some fr }

/-- `GenderPostprocessor.process()`: the base call is a no-op, then a
sequencing error is raised unless both scalars are set, then the four
indicators are appended in their fixed order. -/
def GenderPostprocessor.process (p : GenderPostprocessor) :
    Except PostProcessorError GenderPostprocessor :=
  if p.population_total = none ∨ p.female_ratio = none then
    .error (.sequencing "setup needs to be called before process")
  else
    match p.population_total, p.female_ratio with
    | some pt, some fr =>
      .ok (_append_result
            (_append_result
              (_append_result
                (_append_result p (tr "Total") (_calculate_total pt) none)
                (tr "Female population") (_calculate_females pt fr) none)
              (tr "Weekly hygiene packs") (_calculate_weekly_hygene_packs pt fr)
              (some "Females hygiene packs for weekly use"))
            (tr "Additional weekly rice kg for pregnant and lactating women")
            (_calculate_weekly_increased_calories pt fr)
            (some "Additional rice kg per week for pregnant and lactating women"))
    | _, _ => .error (.sequencing "setup needs to be called before process")

/-- `GenderPostprocessor.clear()`: the base call is a no-op, then both
scalars are reset to null. -/
def GenderPostprocessor.clear (p : GenderPostprocessor) : GenderPostprocessor :=
  { p with population_total := none, female_ratio := none }

/-! ## Vector tools (`safe/common/qgis_vector_tools.py`) -/

/-- The QVariant type tag passed to `QgsField`: the mark field is created
with `QVariant.Int`, every other tag is opaque here. -/
inductive QVarType where
  | qint
  | qother
  deriving DecidableEq, Repr

/-- A `QgsFeature`: a geometry plus an ordered attribute list (attribute
values modelled as integers; only the integer mark value is ever
inspected). -/
structure QgsFeature (G : Type) where
  geom : G
  attributes : List Int
  deriving DecidableEq, Repr

/-- A `QgsVectorLayer`: geometry kind tag (`0` point, `1` line, `2`
polygon, anything else unexpected), coordinate reference system, ordered
field schema, features. -/
structure QgsVectorLayer (G : Type) where
  geometryType : Nat
  crs : String
  fields : List (String × QVarType)
  features : List (QgsFeature G)
  deriving DecidableEq, Repr

/-- Python exceptions raised inside `split_by_polygon`:
`WrongDataTypeException`, the `UnboundLocalError` of reading a
function-local variable before any assignment, and the `IndexError` of an
out-of-range list item assignment. -/
inductive PyErr where
  | wrongDataType : String → PyErr
  | unboundLocal : PyErr
  | indexError : PyErr
  deriving DecidableEq, Repr

/-- `QgsFields.indexFromName` / `fieldNameIndex`: index of the first field
with the given name, `none` modelling the `-1` not-found answer. -/
def fieldNameIndex (fields : List (String × QVarType)) (name : String) : Option Nat :=
  match fields with
  | [] => none
  | fd :: rest =>
    if fd.1 = name then some 0 else (fieldNameIndex rest name).map (· + 1)

/-- The `_update_attr_list` helper of `split_by_polygon`: copy the
attribute list and either append the value (when the mark field was newly
added) or overwrite it in place at `index` (raising `IndexError` when the
index is out of range, as Python item assignment does). -/
def _update_attr_list (attributes : List Int) (index : Nat) (value : Int)
    (add_attribute : Bool) : Except PyErr (List Int) :=
  if add_attribute then .ok (attributes ++ [value])
  else if index < attributes.length then .ok (attributes.set index value)
  else .error .indexError

/-- The external QGIS/GEOS geometry engine consumed by
`split_by_polygon`, an opaque collaborator of the repository: kind tag,
intersection test, intersection, symmetric difference, and
geometry-collection decomposition. -/
structure GeometryEngine (G : Type) where
  gtype : G → Nat
  intersects : G → G → Bool
  intersection : G → G → G
  symDifference : G → G → G
  asGeometryCollection : G → List G

/-- Mutable state of the split loop: the output features accumulated so
far and the current value of the Python function-local `new_attributes`
(`none` before its first assignment — reading it then raises
`UnboundLocalError`). -/
structure SplitState (G : Type) where
  out : List (QgsFeature G)
  newAttrs : Option (List Int)
  deriving DecidableEq, Repr

/-- The loop of `split_by_polygon` over the same-kind parts of the
intersection: emit one feature per part of the feature's own kind; with a
mark directive (`mark = some (index, value)`) the attributes are freshly
recomputed, without one the stale `new_attributes` is read. -/
def emit_inside {G : Type} (eng : GeometryEngine G) (geometry_type : Nat)
    (attributes : List Int) (mark : Option (Nat × Int)) (new_field_added : Bool) :
    List G → SplitState G → Except PyErr (SplitState G)
  | [], st => .ok st
  | g :: rest, st =>
    if eng.gtype g = geometry_type then
      match mark with
      | some (tfi, tv) =>
        match _update_attr_list attributes tfi tv new_field_added with
        | .error e => .error e
        | .ok na =>
          emit_inside eng geometry_type attributes mark new_field_added rest
            ⟨st.out ++ [⟨g, na⟩], some na⟩
      | none =>
        match st.newAttrs with
        | none => .error .unboundLocal
        | some na =>
          emit_inside eng geometry_type attributes mark new_field_added rest
            ⟨st.out ++ [⟨g, na⟩], some na⟩
    else
      emit_inside eng geometry_type attributes mark new_field_added rest st

/-- The loop of `split_by_polygon` over the same-kind parts of the
symmetric difference: emit one feature per part of the feature's own
kind, with the mark field set to `0`; without a mark directive the local
`target_field_index` was never assigned, so the `_update_attr_list` call
raises `UnboundLocalError`. -/
def emit_outside {G : Type} (eng : GeometryEngine G) (geometry_type : Nat)
    (attributes : List Int) (mark : Option (Nat × Int)) (new_field_added : Bool) :
    List G → SplitState G → Except PyErr (SplitState G)
  | [], st => .ok st
  | g :: rest, st =>
    if eng.gtype g = geometry_type then
      match mark with
      | none => .error .unboundLocal
      | some (tfi, _) =>
        match _update_attr_list attributes tfi 0 new_field_added with
        | .error e => .error e
        | .ok na =>
          emit_outside eng geometry_type attributes mark new_field_added rest
            ⟨st.out ++ [⟨g, na⟩], some na⟩
    else
      emit_outside eng geometry_type attributes mark new_field_added rest st

/-- Processing of one source feature by `split_by_polygon`: if the
splitting polygon intersects it, emit its same-kind intersection parts
then its same-kind symmetric-difference parts; otherwise emit it
unchanged — where without a mark directive the emitted attributes are the
stale `new_attributes`, `UnboundLocalError` when never assigned. -/
def split_feature {G : Type} (eng : GeometryEngine G) (polygon : G)
    (mark : Option (Nat × Int)) (new_field_added : Bool)
    (f : QgsFeature G) (st : SplitState G) : Except PyErr (SplitState G) :=
  let geometry_type := eng.gtype f.geom
  if eng.intersects polygon f.geom then
    match emit_inside eng geometry_type f.attributes mark new_field_added
        (eng.asGeometryCollection (eng.intersection f.geom polygon)) st with
    | .error e => .error e
    | .ok st1 =>
      emit_outside eng geometry_type f.attributes mark new_field_added
        (eng.asGeometryCollection (eng.symDifference f.geom polygon)) st1
  else
    match mark with
    | some (tfi, _) =>
      match _update_attr_list f.attributes tfi 0 new_field_added with
      | .error e => .error e
      | .ok na => .ok ⟨st.out ++ [⟨f.geom, na⟩], some na⟩
    | none =>
      match st.newAttrs with
      | none => .error .unboundLocal
      | some na => .ok ⟨st.out ++ [⟨f.geom, na⟩], some na⟩

/-- The feature loop of `split_by_polygon` over the filtered features. -/
def split_features {G : Type} (eng : GeometryEngine G) (polygon : G)
    (mark : Option (Nat × Int)) (new_field_added : Bool) :
    List (QgsFeature G) → SplitState G → Except PyErr (SplitState G)
  | [], st => .ok st
  | f :: rest, st =>
    match split_feature eng polygon mark new_field_added f st with
    | .error e => .error e
    | .ok st1 => split_features eng polygon mark new_field_added rest st1

/-- `split_by_polygon(vector, polygon, request, mark_value)`: reject point
and unexpected layer kinds, copy the schema, add the mark field once when
absent (with integer type), resolve the mark field index (raising
`WrongDataTypeException` when unresolved), then run the split loop. -/
def split_by_polygon {G : Type} (eng : GeometryEngine G)
    (vector : QgsVectorLayer G) (polygon : G)
    (request : QgsFeature G → Bool) (mark_value : Option (String × Int)) :
    Except PyErr (QgsVectorLayer G) :=
  if vector.geometryType = 0 then
    .error (.wrongDataType "Points cant be split")
  else if vector.geometryType = 1 ∨ vector.geometryType = 2 then
    match mark_value with
    | none =>
      match split_features eng polygon none false
          (vector.features.filter request) ⟨[], none⟩ with
      | .error e => .error e
      | .ok st =>
        .ok ⟨vector.geometryType, vector.crs, vector.fields, st.out⟩
    | some (target_field, target_value) =>
      let new_field_added := (fieldNameIndex vector.fields target_field).isNone
      let result_fields :=
        if new_field_added then vector.fields ++ [(target_field, QVarType.qint)]
        else vector.fields
      match fieldNameIndex result_fields target_field with
      | none => .error (.wrongDataType ("Field not found for " ++ target_field))
      | some target_field_index =>
        match split_features eng polygon (some (target_field_index, target_value))
            new_field_added (vector.features.filter request) ⟨[], none⟩ with
        | .error e => .error e
        | .ok st =>
          .ok ⟨vector.geometryType, vector.crs, result_fields, st.out⟩
  else
    .error (.wrongDataType "Received unexpected type of layer geometry")

/-- The part of the geometry engine consumed by `union_geometry`:
`combine` returns `none` when the GEOS union yields no geometry (the
Python code then gets `None` and its `isGeosValid` attribute access
raises `AttributeError`, which is caught and ignored), and the
`isGeosValid` validity check. -/
structure UnionEngine (G : Type) where
  combine : G → G → Option G
  isGeosValid : G → Bool

/-- One step of `union_geometry`: the first feature's geometry is adopted
without a validity check; a later combination replaces the accumulator
only when the combined geometry exists and is valid. -/
def union_step {G : Type} (eng : UnionEngine G) (acc : Option G)
    (f : QgsFeature G) : Option G :=
  match acc with
  | none => some f.geom
  | some r =>
    match eng.combine r f.geom with
    | none => some r
    | some tmp => if eng.isGeosValid tmp then some tmp else some r

/-- `union_geometry(vector, request)`: fold `union_step` over the
filtered features starting from the absent geometry. -/
def union_geometry {G : Type} (eng : UnionEngine G)
    (vector : QgsVectorLayer G) (request : QgsFeature G → Bool) : Option G :=
  (vector.features.filter request).foldl (union_step eng) none

/-- A point feature: a point geometry (exact rational coordinates) plus
attributes. -/
structure QgsPointFeature where
  x : ℚ
  y : ℚ
  attributes : List Int
  deriving DecidableEq, Repr

/-- A point layer for `points_to_rectangles`. -/
structure QgsPointLayer where
  crs : String
  fields : List (String × QVarType)
  features : List QgsPointFeature
  deriving DecidableEq, Repr

/-- A polygon feature produced by `points_to_rectangles`: one ring of
corner points plus attributes. -/
structure QgsPolygonFeature where
  ring : List (ℚ × ℚ)
  attributes : List Int
  deriving DecidableEq, Repr

/-- The polygon layer produced by `points_to_rectangles`. -/
structure QgsPolygonLayer where
  crs : String
  fields : List (String × QVarType)
  features : List QgsPolygonFeature
  deriving DecidableEq, Repr

/-- `points_to_rectangles(points, dx, dy)`: a new polygon layer with the
input's coordinate reference system and schema; for each point `(x, y)`
one rectangle `(x,y), (x+dx,y), (x+dx,y-dy), (x,y-dy)` carrying the
point's attributes. -/
def points_to_rectangles (points : QgsPointLayer) (dx dy : ℚ) : QgsPolygonLayer :=
  { crs := points.crs
    fields := points.fields
    features := points.features.map (fun f =>
      { ring := [(f.x, f.y), (f.x + dx, f.y), (f.x + dx, f.y - dy), (f.x, f.y - dy)]
        attributes := f.attributes }) }

/-- Concrete instantiation of the geometry engine for running the code: a
polygon-kind geometry is a finite set of unit grid cells. -/
abbrev CellGeom := Finset (ℤ × ℤ)

/-- The cell model of the engine: every geometry is polygon-kind (`2`),
set intersection, symmetric difference as the region in exactly one of
the two inputs (the spec's reading of GEOS `symDifference`), and
decomposition of a nonempty geometry into itself as its single part. -/
def cellEngine : GeometryEngine CellGeom :=
  { gtype := fun _ => 2
    intersects := fun a b => decide (a ∩ b ≠ ∅)
    intersection := fun a b => a ∩ b
    symDifference := fun a b => (a \ b) ∪ (b \ a)
    asGeometryCollection := fun g => if g = ∅ then [] else [g] }

/-- A two-element model of geometries for `union_geometry`: `true` is a
valid geometry, `false` an invalid one, combination is conjunction. -/
def flagUnionEngine : UnionEngine Bool :=
  { combine := fun a b => some (a && b)
    isGeosValid := fun g => g }

/-- Observation helper: the error of a failed run. -/
def run_error {ε α : Type} : Except ε α → Option ε
  | .error e => some e
  | .ok _ => none

/-- The third error condition of `split_by_polygon`: a mark directive
whose field name fails to resolve to a column index on the result schema
after the one-time schema extension. -/
def mark_field_unresolved {G : Type} (vector : QgsVectorLayer G)
    (mark_value : Option (String × Int)) : Prop :=
  match mark_value with
  | none => False
  | some (tf, _) =>
    fieldNameIndex
      (if (fieldNameIndex vector.fields tf).isNone
       then vector.fields ++ [(tf, QVarType.qint)]
       else vector.fields) tf = none

/-- The result schema of `split_by_polygon`: the source schema, extended
once by the mark field with integer type when that field is absent. -/
def expected_result_fields {G : Type} (vector : QgsVectorLayer G)
    (mark_value : Option (String × Int)) : List (String × QVarType) :=
  match mark_value with
  | none => vector.fields
  | some (tf, _) =>
    if (fieldNameIndex vector.fields tf).isNone
    then vector.fields ++ [(tf, QVarType.qint)]
    else vector.fields

/-- Observation helper for `union_geometry`: the result is a present and
valid geometry. -/
def valid_geometry_result {G : Type} (eng : UnionEngine G) : Option G → Bool
  | none => false
  | some g => eng.isGeosValid g

/-! ## Theorems -/

/-- Evaluation helper for `python_round` on a nonnegative rational. -/
theorem python_round_nonneg_eq (q : ℚ) (n : Int) (h0 : 0 ≤ q)
    (h1 : (n:ℚ) ≤ q + 1/2) (h2 : q + 1/2 < n + 1) : python_round q = n := by
  rw [python_round, if_pos h0, Int.floor_eq_iff]
  exact ⟨h1, h2⟩

/-- C2: after `setup` with `population_total = 1000` and
`female_ratio = 0.5`, `process()` appends exactly four integer indicators
to the result sink, in the fixed order Total, Female population, Weekly
hygiene packs, Additional weekly rice kg, with values 1000, 500, 397 and
47, the rice indicator summing the lactating and pregnant amounts exactly
before a single rounding. -/
theorem gender_indicators_pop1000_ratio_half :
    (GenderPostprocessor.init.setup
      [("population_total", (1000:ℚ)), ("female_ratio", (1:ℚ)/2)]).bind
      GenderPostprocessor.process =
    .ok { population_total := some 1000, female_ratio := some (1/2),
          results :=
            [⟨"Total", 1000, none⟩,
             ⟨"Female population", 500, none⟩,
             ⟨"Weekly hygiene packs", 397,
               some "Females hygiene packs for weekly use"⟩,
             ⟨"Additional weekly rice kg for pregnant and lactating women", 47,
               some "Additional rice kg per week for pregnant and lactating women"⟩] } := by
  have ht : python_round (1000 : ℚ) = 1000 :=
    python_round_nonneg_eq _ _ (by norm_num) (by norm_num) (by norm_num)
  have hf : python_round ((1000 : ℚ) * (1/2)) = 500 :=
    python_round_nonneg_eq _ _ (by norm_num) (by norm_num) (by norm_num)
  have hh : python_round ((1000 : ℚ) * (1/2) * (7937/10000) * (((7:ℤ)/7 : ℤ) : ℚ)) = 397 :=
    python_round_nonneg_eq _ _ (by norm_num) (by norm_num) (by norm_num)
  have hr : python_round ((1000 : ℚ) * (1/2) * 2 * (33782/1000000)
      + (1000 : ℚ) * (1/2) * 2 * (1281/100000)) = 47 :=
    python_round_nonneg_eq _ _ (by norm_num) (by norm_num) (by norm_num)
  have h1 : dict_get [("population_total", (1000:ℚ)), ("female_ratio", (1:ℚ)/2)]
      "population_total" = some 1000 := rfl
  have h2 : dict_get [("population_total", (1000:ℚ)), ("female_ratio", (1:ℚ)/2)]
      "female_ratio" = some (1/2) := rfl
  simp only [GenderPostprocessor.init, GenderPostprocessor.setup,
    GenderPostprocessor.process, h1, h2, _append_result,
    _calculate_total, _calculate_females, _calculate_weekly_hygene_packs,
    _calculate_weekly_increased_calories, tr, Except.bind]
  simp [ht, hf, hh, hr]
  exact ⟨python_round_nonneg_eq _ _ (by norm_num) (by norm_num) (by norm_num),
    python_round_nonneg_eq _ _ (by norm_num) (by norm_num) (by norm_num),
    python_round_nonneg_eq _ _ (by norm_num) (by norm_num) (by norm_num)⟩

/-- C1: `process()` with either scalar null raises the sequencing error,
`setup()` with either scalar already set raises the sequencing error, and
`clear()` resets both scalars to null so that a subsequent `setup()` (on a
params mapping holding both keys) succeeds. -/
theorem gender_lifecycle_sequencing (p q : GenderPostprocessor)
    (params : List (String × ℚ)) (v r : ℚ)
    (hp : p.population_total = none ∨ p.female_ratio = none)
    (hq : q.population_total ≠ none ∨ q.female_ratio ≠ none)
    (h1 : dict_get params "population_total" = some v)
    (h2 : dict_get params "female_ratio" = some r) :
    GenderPostprocessor.process p =
      .error (.sequencing "setup needs to be called before process") ∧
    GenderPostprocessor.setup q params =
      .error (.sequencing "clear needs to be called before setup") ∧
    (GenderPostprocessor.clear q).population_total = none ∧
    (GenderPostprocessor.clear q).female_ratio = none ∧
    GenderPostprocessor.setup (GenderPostprocessor.clear q) params =
      .ok { GenderPostprocessor.clear q with
              population_total := some v, female_ratio := some r } := by
  refine ⟨?_, ?_, rfl, rfl, ?_⟩
  · rw [GenderPostprocessor.process, if_pos hp]
  · rw [GenderPostprocessor.setup, if_pos hq]
  · rw [GenderPostprocessor.setup, if_neg (by simp [GenderPostprocessor.clear]),
      h1, h2]

/-- C1 witness: a concrete uninitialized state, a concrete configured
state and a concrete params mapping. -/
theorem gender_lifecycle_sequencing_witness :
    GenderPostprocessor.process ⟨none, some 1, []⟩ =
      .error (.sequencing "setup needs to be called before process") ∧
    GenderPostprocessor.setup ⟨some 1000, some (1/2), []⟩
        [("population_total", (3:ℚ)), ("female_ratio", (2:ℚ)/10)] =
      .error (.sequencing "clear needs to be called before setup") ∧
    (GenderPostprocessor.clear ⟨some 1000, some (1/2), []⟩).population_total = none ∧
    (GenderPostprocessor.clear ⟨some 1000, some (1/2), []⟩).female_ratio = none ∧
    GenderPostprocessor.setup
        (GenderPostprocessor.clear ⟨some 1000, some (1/2), []⟩)
        [("population_total", (3:ℚ)), ("female_ratio", (2:ℚ)/10)] =
      .ok { GenderPostprocessor.clear ⟨some 1000, some (1/2), []⟩ with
              population_total := some 3, female_ratio := some ((2:ℚ)/10) } :=
  gender_lifecycle_sequencing ⟨none, some 1, []⟩ ⟨some 1000, some (1/2), []⟩
    [("population_total", (3:ℚ)), ("female_ratio", (2:ℚ)/10)] 3 (2/10)
    (Or.inl rfl) (Or.inl (by simp)) rfl rfl

/-- C10: `setup` performs no range validation: from the cleared state, any
params mapping holding both keys is accepted and stored verbatim, a
negative total or an out-of-range ratio included; on a mapping holding
both keys the only error `setup` can signal is the sequencing error (the
non-cleared state). -/
theorem gender_setup_no_validation (p q : GenderPostprocessor)
    (params : List (String × ℚ)) (v r : ℚ)
    (hp : p.population_total = none) (hf : p.female_ratio = none)
    (h1 : dict_get params "population_total" = some v)
    (h2 : dict_get params "female_ratio" = some r)
    (hq : q.population_total ≠ none ∨ q.female_ratio ≠ none) :
    GenderPostprocessor.setup p params =
      .ok { p with population_total := some v, female_ratio := some r } ∧
    GenderPostprocessor.setup q params =
      .error (.sequencing "clear needs to be called before setup") := by
  constructor
  · rw [GenderPostprocessor.setup, if_neg (by simp [hp, hf]), h1, h2]
  · rw [GenderPostprocessor.setup, if_pos hq]

/-- C10 witness: a negative population total and a ratio above one are
both stored verbatim. -/
theorem gender_setup_no_validation_witness :
    GenderPostprocessor.setup GenderPostprocessor.init
        [("population_total", (-5:ℚ)), ("female_ratio", (3:ℚ)/2)] =
      .ok { GenderPostprocessor.init with
              population_total := some (-5), female_ratio := some ((3:ℚ)/2) } ∧
    GenderPostprocessor.setup ⟨some 1, none, []⟩
        [("population_total", (-5:ℚ)), ("female_ratio", (3:ℚ)/2)] =
      .error (.sequencing "clear needs to be called before setup") :=
  gender_setup_no_validation GenderPostprocessor.init ⟨some 1, none, []⟩
    [("population_total", (-5:ℚ)), ("female_ratio", (3:ℚ)/2)] (-5) (3/2)
    rfl rfl rfl rfl (Or.inl (by simp))

/-- C8: when zero features of the input collection match the filter,
`union_geometry` returns the absent-geometry signal, not an error. -/
theorem union_geometry_empty_filter {G : Type} (eng : UnionEngine G)
    (vector : QgsVectorLayer G) (request : QgsFeature G → Bool)
    (h : vector.features.filter request = []) :
    union_geometry eng vector request = none := by
  rw [union_geometry, h]
  rfl

/-- C8 witness: a concrete one-feature layer with a filter matching
nothing. -/
theorem union_geometry_empty_filter_witness :
    union_geometry flagUnionEngine ⟨2, "crs", [], [⟨false, []⟩]⟩
      (fun _ => false) = none :=
  union_geometry_empty_filter flagUnionEngine ⟨2, "crs", [], [⟨false, []⟩]⟩
    (fun _ => false) (by decide)

/-- C3 counterexample: the first matching geometry is adopted without a
validity check, so a union over a single invalid geometry returns that
invalid geometry — the returned geometry is not always valid. -/
theorem union_geometry_first_invalid_cex :
    union_geometry flagUnionEngine ⟨2, "crs", [], [⟨false, []⟩]⟩
        (fun _ => true) = some false ∧
    flagUnionEngine.isGeosValid false = false := by
  decide

/-- C3 amended: `union_geometry` never raises, and whenever the first
matching feature's geometry is valid the returned geometry is present and
valid — every later pairwise combination is validity-checked and an
invalid (or absent) combination is discarded, keeping the previous
accumulator. -/
theorem union_geometry_valid_of_first_valid {G : Type} (eng : UnionEngine G)
    (vector : QgsVectorLayer G) (request : QgsFeature G → Bool)
    (f0 : QgsFeature G) (rest : List (QgsFeature G))
    (hfilter : vector.features.filter request = f0 :: rest)
    (hvalid : eng.isGeosValid f0.geom = true) :
    valid_geometry_result eng (union_geometry eng vector request) = true := by
  have key : ∀ (fs : List (QgsFeature G)) (r : G), eng.isGeosValid r = true →
      valid_geometry_result eng (fs.foldl (union_step eng) (some r)) = true := by
    intro fs
    induction fs with
    | nil => intro r hr; simpa [valid_geometry_result] using hr
    | cons f fs ih =>
      intro r hr
      rw [List.foldl_cons]
      cases hc : eng.combine r f.geom with
      | none => simpa [union_step, hc] using ih r hr
      | some tmp =>
        cases hv : eng.isGeosValid tmp with
        | true => simpa [union_step, hc, hv] using ih tmp hv
        | false => simpa [union_step, hc, hv] using ih r hr
  rw [union_geometry, hfilter, List.foldl_cons]
  exact key rest f0.geom hvalid

/-- C3 amended witness: a valid first geometry followed by a feature whose
combination would be invalid still yields a valid result. -/
theorem union_geometry_valid_of_first_valid_witness :
    valid_geometry_result flagUnionEngine
      (union_geometry flagUnionEngine
        ⟨2, "crs", [], [⟨true, []⟩, ⟨false, []⟩]⟩ (fun _ => true)) = true :=
  union_geometry_valid_of_first_valid flagUnionEngine
    ⟨2, "crs", [], [⟨true, []⟩, ⟨false, []⟩]⟩ (fun _ => true)
    ⟨true, []⟩ [⟨false, []⟩] (by decide) (by decide)

/-- C7: `points_to_rectangles` keeps the coordinate reference system and
the attribute schema, and maps each point feature at `(x, y)` to exactly
one polygon feature with corners `(x,y), (x+dx,y), (x+dx,y-dy), (x,y-dy)`
and the same attributes. -/
theorem points_to_rectangles_spec (points : QgsPointLayer) (dx dy : ℚ)
    (hdx : 0 < dx) (hdy : 0 < dy) :
    (points_to_rectangles points dx dy).crs = points.crs ∧
    (points_to_rectangles points dx dy).fields = points.fields ∧
    (points_to_rectangles points dx dy).features =
      points.features.map (fun f =>
        { ring := [(f.x, f.y), (f.x + dx, f.y), (f.x + dx, f.y - dy), (f.x, f.y - dy)]
          attributes := f.attributes }) :=
  ⟨rfl, rfl, rfl⟩

/-- C7 witness: a single point at the origin with unit extents. -/
theorem points_to_rectangles_spec_witness :
    (points_to_rectangles ⟨"crs", [("a", QVarType.qother)], [⟨0, 0, [3]⟩]⟩ 1 1).crs = "crs" ∧
    (points_to_rectangles ⟨"crs", [("a", QVarType.qother)], [⟨0, 0, [3]⟩]⟩ 1 1).fields =
      [("a", QVarType.qother)] ∧
    (points_to_rectangles ⟨"crs", [("a", QVarType.qother)], [⟨0, 0, [3]⟩]⟩ 1 1).features =
      [⟨[((0:ℚ), (0:ℚ)), ((0:ℚ) + 1, (0:ℚ)), ((0:ℚ) + 1, (0:ℚ) - 1), ((0:ℚ), (0:ℚ) - 1)], [3]⟩] :=
  points_to_rectangles_spec ⟨"crs", [("a", QVarType.qother)], [⟨0, 0, [3]⟩]⟩ 1 1
    (by norm_num) (by norm_num)

/-- C5, evaluated at the failing input: splitting a non-intersecting
feature with no mark directive reads the never-assigned local
`new_attributes`, raising `UnboundLocalError` instead of emitting the
feature unchanged. -/
theorem split_by_polygon_no_mark_unbound_local :
    run_error (split_by_polygon cellEngine
      ⟨2, "crs", [("a", QVarType.qother)], [⟨{((5:ℤ),(5:ℤ))}, [7]⟩]⟩
      {((0:ℤ),(0:ℤ))} (fun _ => true) none) = some .unboundLocal := by
  decide

/-- C6 counterexample: a polygon feature fully inside the splitting
polygon (a strict nonempty subset) does not yield "no outside parts" —
the symmetric difference is the polygon-minus-feature region, of polygon
kind, so one extra feature marked `0` is emitted. -/
theorem split_fully_inside_outside_part_cex :
    ({((0:ℤ),(0:ℤ))} : CellGeom) ⊆ {((0:ℤ),(0:ℤ)), ((1:ℤ),(0:ℤ))} ∧
    split_by_polygon cellEngine
        ⟨2, "crs", [("a", QVarType.qother)], [⟨{((0:ℤ),(0:ℤ))}, [7]⟩]⟩
        {((0:ℤ),(0:ℤ)), ((1:ℤ),(0:ℤ))} (fun _ => true) (some ("m", 5)) =
      .ok ⟨2, "crs", [("a", QVarType.qother), ("m", QVarType.qint)],
        [⟨{((0:ℤ),(0:ℤ))}, [7, 5]⟩, ⟨{((1:ℤ),(0:ℤ))}, [7, 0]⟩]⟩ := by
  constructor
  · decide
  · decide

theorem _update_attr_list_error_eq {a : List Int} {i : Nat} {v : Int}
    {b : Bool} {e : PyErr} (h : _update_attr_list a i v b = .error e) :
    e = .indexError := by
  rw [_update_attr_list] at h
  split at h
  · cases h
  · split at h
    · cases h
    · simp only [Except.error.injEq] at h
      exact h.symm

theorem emit_inside_error {G : Type} (eng : GeometryEngine G) (gt : Nat)
    (attrs : List Int) (mark : Option (Nat × Int)) (nfa : Bool) :
    ∀ (parts : List G) (st : SplitState G) (e : PyErr),
    emit_inside eng gt attrs mark nfa parts st = .error e →
    e = .indexError ∨ e = .unboundLocal := by
  intro parts
  induction parts with
  | nil => intro st e h; cases h
  | cons g rest ih =>
    intro st e h
    simp only [emit_inside] at h
    split at h
    · split at h
      · split at h
        · rename_i heq
          simp only [Except.error.injEq] at h
          exact Or.inl (h ▸ _update_attr_list_error_eq heq)
        · exact ih _ _ h
      · split at h
        · simp only [Except.error.injEq] at h
          exact Or.inr h.symm
        · exact ih _ _ h
    · exact ih _ _ h

theorem emit_outside_error {G : Type} (eng : GeometryEngine G) (gt : Nat)
    (attrs : List Int) (mark : Option (Nat × Int)) (nfa : Bool) :
    ∀ (parts : List G) (st : SplitState G) (e : PyErr),
    emit_outside eng gt attrs mark nfa parts st = .error e →
    e = .indexError ∨ e = .unboundLocal := by
  intro parts
  induction parts with
  | nil => intro st e h; cases h
  | cons g rest ih =>
    intro st e h
    simp only [emit_outside] at h
    split at h
    · split at h
      · simp only [Except.error.injEq] at h
        exact Or.inr h.symm
      · split at h
        · rename_i heq
          simp only [Except.error.injEq] at h
          exact Or.inl (h ▸ _update_attr_list_error_eq heq)
        · exact ih _ _ h
    · exact ih _ _ h

theorem split_feature_error {G : Type} (eng : GeometryEngine G) (polygon : G)
    (mark : Option (Nat × Int)) (nfa : Bool) (f : QgsFeature G)
    (st : SplitState G) (e : PyErr)
    (h : split_feature eng polygon mark nfa f st = .error e) :
    e = .indexError ∨ e = .unboundLocal := by
  simp only [split_feature] at h
  split at h
  · split at h
    · rename_i heq
      simp only [Except.error.injEq] at h
      exact h ▸ emit_inside_error eng _ _ mark nfa _ _ _ heq
    · exact emit_outside_error eng _ _ mark nfa _ _ _ h
  · split at h
    · split at h
      · rename_i heq
        simp only [Except.error.injEq] at h
        exact Or.inl (h ▸ _update_attr_list_error_eq heq)
      · cases h
    · split at h
      · simp only [Except.error.injEq] at h
        exact Or.inr h.symm
      · cases h

theorem split_features_error {G : Type} (eng : GeometryEngine G) (polygon : G)
    (mark : Option (Nat × Int)) (nfa : Bool) :
    ∀ (fs : List (QgsFeature G)) (st : SplitState G) (e : PyErr),
    split_features eng polygon mark nfa fs st = .error e →
    e = .indexError ∨ e = .unboundLocal := by
  intro fs
  induction fs with
  | nil => intro st e h; cases h
  | cons f rest ih =>
    intro st e h
    simp only [split_features] at h
    split at h
    · rename_i heq
      simp only [Except.error.injEq] at h
      exact h ▸ split_feature_error eng polygon mark nfa f st _ heq
    · exact ih _ _ h

/-- C4: `split_by_polygon` raises `WrongDataTypeException` exactly when
the source collection is of point kind, or of an unexpected kind (neither
line nor polygon), or the mark field fails to resolve to a column index
after the one-time schema extension. -/
theorem split_by_polygon_wrong_data_kind_iff {G : Type} (eng : GeometryEngine G)
    (vector : QgsVectorLayer G) (polygon : G)
    (request : QgsFeature G → Bool) (mark_value : Option (String × Int)) :
    (∃ s, split_by_polygon eng vector polygon request mark_value =
      .error (.wrongDataType s)) ↔
    (vector.geometryType = 0 ∨
      ¬(vector.geometryType = 1 ∨ vector.geometryType = 2) ∨
      mark_field_unresolved vector mark_value) := by
  by_cases h0 : vector.geometryType = 0
  · constructor
    · intro _; exact Or.inl h0
    · intro _
      refine ⟨"Points cant be split", ?_⟩
      simp only [split_by_polygon]
      rw [if_pos h0]
  by_cases h12 : vector.geometryType = 1 ∨ vector.geometryType = 2
  · constructor
    · rintro ⟨s, h⟩
      simp only [split_by_polygon] at h
      rw [if_neg h0, if_pos h12] at h
      refine Or.inr (Or.inr ?_)
      cases hm : mark_value with
      | none =>
        rw [hm] at h
        cases hsf : split_features eng polygon none false
            (vector.features.filter request) ⟨[], none⟩ with
        | error e1 =>
          simp only [hsf, Except.error.injEq] at h
          rcases split_features_error eng polygon none false _ _ _ hsf with h1 | h1 <;>
            simp [h1] at h
        | ok st => simp [hsf] at h
      | some tv =>
        obtain ⟨tf, tvv⟩ := tv
        rw [hm] at h
        cases hres : fieldNameIndex
            (if (fieldNameIndex vector.fields tf).isNone
             then vector.fields ++ [(tf, QVarType.qint)]
             else vector.fields) tf with
        | none =>
          simp only [mark_field_unresolved]
          exact hres
        | some idx =>
          simp only [hres] at h
          cases hsf : split_features eng polygon (some (idx, tvv))
              (fieldNameIndex vector.fields tf).isNone
              (vector.features.filter request) ⟨[], none⟩ with
          | error e1 =>
            simp only [hsf, Except.error.injEq] at h
            rcases split_features_error eng polygon _ _ _ _ _ hsf with h1 | h1 <;>
              simp [h1] at h
          | ok st => simp [hsf] at h
    · rintro (h | h | h)
      · exact absurd h h0
      · exact absurd h12 h
      · cases hm : mark_value with
        | none => rw [hm] at h; cases h
        | some tv =>
          rw [hm] at h
          obtain ⟨tf, tv'⟩ := tv
          simp only [mark_field_unresolved] at h
          refine ⟨"Field not found for " ++ tf, ?_⟩
          simp only [split_by_polygon]
          rw [if_neg h0, if_pos h12]
          simp only [h]
  · constructor
    · intro _; exact Or.inr (Or.inl h12)
    · intro _
      refine ⟨"Received unexpected type of layer geometry", ?_⟩
      simp only [split_by_polygon]
      rw [if_neg h0, if_neg h12]

/-- C4 witness: a point-kind layer in the concrete cell model. -/
theorem split_by_polygon_wrong_data_kind_iff_witness :
    (∃ s, split_by_polygon cellEngine
        (⟨0, "crs", [], []⟩ : QgsVectorLayer CellGeom) ∅ (fun _ => true) none =
      .error (.wrongDataType s)) ↔
    ((⟨0, "crs", [], []⟩ : QgsVectorLayer CellGeom).geometryType = 0 ∨
      ¬((⟨0, "crs", [], []⟩ : QgsVectorLayer CellGeom).geometryType = 1 ∨
        (⟨0, "crs", [], []⟩ : QgsVectorLayer CellGeom).geometryType = 2) ∨
      mark_field_unresolved (⟨0, "crs", [], []⟩ : QgsVectorLayer CellGeom) none) :=
  split_by_polygon_wrong_data_kind_iff cellEngine ⟨0, "crs", [], []⟩ ∅
    (fun _ => true) none

theorem _update_attr_list_ok_length {a : List Int} {i : Nat} {v : Int}
    {b : Bool} {na : List Int} (h : _update_attr_list a i v b = .ok na) :
    na.length = a.length + (if b then 1 else 0) := by
  rw [_update_attr_list] at h
  split at h
  · rename_i hb
    simp only [Except.ok.injEq] at h
    subst h
    simp [hb]
  · rename_i hb
    split at h
    · simp only [Except.ok.injEq] at h
      subst h
      simp [hb, List.length_set]
    · cases h

theorem emit_inside_ok_length {G : Type} (eng : GeometryEngine G) (gt : Nat)
    (attrs : List Int) (mark : Option (Nat × Int)) (nfa : Bool) :
    ∀ (parts : List G) (st st' : SplitState G),
    emit_inside eng gt attrs mark nfa parts st = .ok st' →
    (∀ x ∈ st.out, x.attributes.length = attrs.length + (if nfa then 1 else 0)) →
    (∀ l, st.newAttrs = some l → l.length = attrs.length + (if nfa then 1 else 0)) →
    (∀ x ∈ st'.out, x.attributes.length = attrs.length + (if nfa then 1 else 0)) ∧
    (∀ l, st'.newAttrs = some l → l.length = attrs.length + (if nfa then 1 else 0)) := by
  intro parts
  induction parts with
  | nil =>
    intro st st' h hout hna
    simp only [emit_inside, Except.ok.injEq] at h
    subst h
    exact ⟨hout, hna⟩
  | cons g rest ih =>
    intro st st' h hout hna
    simp only [emit_inside] at h
    split at h
    · split at h
      · split at h
        · cases h
        · rename_i na heq
          refine ih _ _ h ?_ ?_
          · intro x hx
            rcases List.mem_append.mp hx with hx | hx
            · exact hout x hx
            · rcases List.mem_singleton.mp hx with rfl
              simpa using _update_attr_list_ok_length heq
          · intro l hl
            simp only [Option.some.injEq] at hl
            subst hl
            exact _update_attr_list_ok_length heq
      · split at h
        · cases h
        · rename_i na heq
          refine ih _ _ h ?_ ?_
          · intro x hx
            rcases List.mem_append.mp hx with hx | hx
            · exact hout x hx
            · rcases List.mem_singleton.mp hx with rfl
              simpa using hna na heq
          · intro l hl
            simp only [Option.some.injEq] at hl
            subst hl
            exact hna na heq
    · exact ih _ _ h hout hna

theorem emit_outside_ok_length {G : Type} (eng : GeometryEngine G) (gt : Nat)
    (attrs : List Int) (mark : Option (Nat × Int)) (nfa : Bool) :
    ∀ (parts : List G) (st st' : SplitState G),
    emit_outside eng gt attrs mark nfa parts st = .ok st' →
    (∀ x ∈ st.out, x.attributes.length = attrs.length + (if nfa then 1 else 0)) →
    (∀ l, st.newAttrs = some l → l.length = attrs.length + (if nfa then 1 else 0)) →
    (∀ x ∈ st'.out, x.attributes.length = attrs.length + (if nfa then 1 else 0)) ∧
    (∀ l, st'.newAttrs = some l → l.length = attrs.length + (if nfa then 1 else 0)) := by
  intro parts
  induction parts with
  | nil =>
    intro st st' h hout hna
    simp only [emit_outside, Except.ok.injEq] at h
    subst h
    exact ⟨hout, hna⟩
  | cons g rest ih =>
    intro st st' h hout hna
    simp only [emit_outside] at h
    split at h
    · split at h
      · cases h
      · split at h
        · cases h
        · rename_i na heq
          refine ih _ _ h ?_ ?_
          · intro x hx
            rcases List.mem_append.mp hx with hx | hx
            · exact hout x hx
            · rcases List.mem_singleton.mp hx with rfl
              simpa using _update_attr_list_ok_length heq
          · intro l hl
            simp only [Option.some.injEq] at hl
            subst hl
            exact _update_attr_list_ok_length heq
    · exact ih _ _ h hout hna

theorem split_feature_ok_length {G : Type} (eng : GeometryEngine G) (polygon : G)
    (mark : Option (Nat × Int)) (nfa : Bool) (n : Nat) (f : QgsFeature G)
    (st st' : SplitState G)
    (hflen : f.attributes.length = n)
    (h : split_feature eng polygon mark nfa f st = .ok st')
    (hout : ∀ x ∈ st.out, x.attributes.length = n + (if nfa then 1 else 0))
    (hna : ∀ l, st.newAttrs = some l → l.length = n + (if nfa then 1 else 0)) :
    (∀ x ∈ st'.out, x.attributes.length = n + (if nfa then 1 else 0)) ∧
    (∀ l, st'.newAttrs = some l → l.length = n + (if nfa then 1 else 0)) := by
  subst hflen
  simp only [split_feature] at h
  split at h
  · split at h
    · cases h
    · rename_i st1 heq
      have h1 := emit_inside_ok_length eng _ f.attributes mark nfa _ _ _ heq hout hna
      exact emit_outside_ok_length eng _ f.attributes mark nfa _ _ _ h h1.1 h1.2
  · split at h
    · split at h
      · cases h
      · rename_i na heq
        simp only [Except.ok.injEq] at h
        subst h
        constructor
        · intro x hx
          rcases List.mem_append.mp hx with hx | hx
          · exact hout x hx
          · rcases List.mem_singleton.mp hx with rfl
            simpa using _update_attr_list_ok_length heq
        · intro l hl
          simp only [Option.some.injEq] at hl
          subst hl
          exact _update_attr_list_ok_length heq
    · split at h
      · cases h
      · rename_i na heq
        simp only [Except.ok.injEq] at h
        subst h
        constructor
        · intro x hx
          rcases List.mem_append.mp hx with hx | hx
          · exact hout x hx
          · rcases List.mem_singleton.mp hx with rfl
            simpa using hna na heq
        · intro l hl
          simp only [Option.some.injEq] at hl
          subst hl
          exact hna na heq

theorem split_features_ok_length {G : Type} (eng : GeometryEngine G) (polygon : G)
    (mark : Option (Nat × Int)) (nfa : Bool) (n : Nat) :
    ∀ (fs : List (QgsFeature G)) (st st' : SplitState G),
    (∀ f ∈ fs, f.attributes.length = n) →
    split_features eng polygon mark nfa fs st = .ok st' →
    (∀ x ∈ st.out, x.attributes.length = n + (if nfa then 1 else 0)) →
    (∀ l, st.newAttrs = some l → l.length = n + (if nfa then 1 else 0)) →
    (∀ x ∈ st'.out, x.attributes.length = n + (if nfa then 1 else 0)) ∧
    (∀ l, st'.newAttrs = some l → l.length = n + (if nfa then 1 else 0)) := by
  intro fs
  induction fs with
  | nil =>
    intro st st' hfs h hout hna
    simp only [split_features, Except.ok.injEq] at h
    subst h
    exact ⟨hout, hna⟩
  | cons f rest ih =>
    intro st st' hfs h hout hna
    simp only [split_features] at h
    split at h
    · cases h
    · rename_i st1 heq
      have h1 := split_feature_ok_length eng polygon mark nfa n f st st1
        (hfs f (List.mem_cons_self f rest)) heq hout hna
      exact ih st1 st' (fun x hx => hfs x (List.mem_cons_of_mem f hx)) h h1.1 h1.2

/-- C9: every feature emitted by a successful `split_by_polygon` run (on a
well-formed source, each feature carrying one attribute per schema field)
has exactly the arity of the result schema: one more than the source's
when the mark field was absent and got appended once with integer type,
unchanged when the mark field was already present (overwritten in place)
or no mark was requested. -/
theorem split_by_polygon_attribute_arity {G : Type} (eng : GeometryEngine G)
    (vector : QgsVectorLayer G) (polygon : G) (request : QgsFeature G → Bool)
    (mark_value : Option (String × Int)) (out : QgsVectorLayer G)
    (hwf : ∀ f ∈ vector.features, f.attributes.length = vector.fields.length)
    (hok : split_by_polygon eng vector polygon request mark_value = .ok out) :
    (out.features.all (fun f => f.attributes.length == out.fields.length) = true) ∧
    out.fields = expected_result_fields vector mark_value := by
  have hwf' : ∀ f ∈ vector.features.filter request,
      f.attributes.length = vector.fields.length :=
    fun f hf => hwf f (List.mem_of_mem_filter hf)
  simp only [split_by_polygon] at hok
  by_cases h0 : vector.geometryType = 0
  · rw [if_pos h0] at hok; cases hok
  rw [if_neg h0] at hok
  by_cases h12 : vector.geometryType = 1 ∨ vector.geometryType = 2
  · rw [if_pos h12] at hok
    cases hm : mark_value with
    | none =>
      rw [hm] at hok
      cases hsf : split_features eng polygon none false
          (vector.features.filter request) ⟨[], none⟩ with
      | error e => simp [hsf] at hok
      | ok st =>
        simp only [hsf, Except.ok.injEq] at hok
        subst hok
        refine ⟨?_, by simp [expected_result_fields]⟩
        rw [List.all_eq_true]
        intro f hf
        have hlen := (split_features_ok_length eng polygon none false
          vector.fields.length _ _ _ hwf' hsf (by simp) (by simp)).1 f hf
        simpa using hlen
    | some tv =>
      obtain ⟨tf, tvv⟩ := tv
      rw [hm] at hok
      cases hres : fieldNameIndex
          (if (fieldNameIndex vector.fields tf).isNone
           then vector.fields ++ [(tf, QVarType.qint)]
           else vector.fields) tf with
      | none =>
        simp only [hres] at hok
        cases hok
      | some idx =>
        simp only [hres] at hok
        cases hsf : split_features eng polygon (some (idx, tvv))
            (fieldNameIndex vector.fields tf).isNone
            (vector.features.filter request) ⟨[], none⟩ with
        | error e => simp [hsf] at hok
        | ok st =>
          simp only [hsf, Except.ok.injEq] at hok
          subst hok
          refine ⟨?_, by simp [expected_result_fields]⟩
          rw [List.all_eq_true]
          intro f hf
          have hlen := (split_features_ok_length eng polygon (some (idx, tvv))
            (fieldNameIndex vector.fields tf).isNone
            vector.fields.length _ _ _ hwf' hsf (by simp) (by simp)).1 f hf
          cases hb : (fieldNameIndex vector.fields tf).isNone with
          | true => rw [hb] at hlen; simp [hb, hlen]
          | false => rw [hb] at hlen; simp [hb, hlen]
  · rw [if_neg h12] at hok; cases hok

/-- C9 witness: a concrete intersecting polygon feature with a mark field
absent from the schema; the two emitted features carry one attribute more
than the source schema. -/
theorem split_by_polygon_attribute_arity_witness :
    ((⟨2, "crs", [("a", QVarType.qother), ("m", QVarType.qint)],
        [⟨{((0:ℤ),(0:ℤ))}, [7, 5]⟩, ⟨{((1:ℤ),(0:ℤ))}, [7, 0]⟩]⟩ :
        QgsVectorLayer CellGeom).features.all
      (fun f => f.attributes.length ==
        (⟨2, "crs", [("a", QVarType.qother), ("m", QVarType.qint)],
          [⟨{((0:ℤ),(0:ℤ))}, [7, 5]⟩, ⟨{((1:ℤ),(0:ℤ))}, [7, 0]⟩]⟩ :
          QgsVectorLayer CellGeom).fields.length) = true) ∧
    (⟨2, "crs", [("a", QVarType.qother), ("m", QVarType.qint)],
        [⟨{((0:ℤ),(0:ℤ))}, [7, 5]⟩, ⟨{((1:ℤ),(0:ℤ))}, [7, 0]⟩]⟩ :
        QgsVectorLayer CellGeom).fields =
      expected_result_fields
        (⟨2, "crs", [("a", QVarType.qother)], [⟨{((0:ℤ),(0:ℤ))}, [7]⟩]⟩ :
          QgsVectorLayer CellGeom) (some ("m", 5)) :=
  split_by_polygon_attribute_arity cellEngine
    ⟨2, "crs", [("a", QVarType.qother)], [⟨{((0:ℤ),(0:ℤ))}, [7]⟩]⟩
    {((0:ℤ),(0:ℤ)), ((1:ℤ),(0:ℤ))} (fun _ => true) (some ("m", 5))
    ⟨2, "crs", [("a", QVarType.qother), ("m", QVarType.qint)],
      [⟨{((0:ℤ),(0:ℤ))}, [7, 5]⟩, ⟨{((1:ℤ),(0:ℤ))}, [7, 0]⟩]⟩
    (by decide) (by decide)

theorem fieldNameIndex_append_self (fields : List (String × QVarType))
    (tf : String) (t : QVarType) (h : fieldNameIndex fields tf = none) :
    fieldNameIndex (fields ++ [(tf, t)]) tf = some fields.length := by
  induction fields with
  | nil => simp [fieldNameIndex]
  | cons fd rest ih =>
    rw [fieldNameIndex] at h
    by_cases hfd : fd.1 = tf
    · rw [if_pos hfd] at h; cases h
    · rw [if_neg hfd] at h
      rw [Option.map_eq_none'] at h
      rw [List.cons_append, fieldNameIndex, if_neg hfd, ih h]
      simp

/-- C6 amended: with a mark directive, a nonempty polygon feature strictly
inside the splitting polygon yields exactly one "inside" part — the
feature itself, attributes extended with the mark value — and exactly one
"outside" part carrying the polygon-minus-feature remainder of the
symmetric difference, attributes extended with `0` (sub-parts of a kind
other than the feature's are dropped). -/
theorem split_fully_inside_polygon_feature (A P : CellGeom) (crs : String)
    (fields : List (String × QVarType)) (attrs : List Int) (tf : String) (tv : Int)
    (hsub : A ⊆ P) (hne : A.Nonempty) (hneq : A ≠ P)
    (hfield : fieldNameIndex fields tf = none) :
    split_by_polygon cellEngine ⟨2, crs, fields, [⟨A, attrs⟩]⟩ P (fun _ => true)
        (some (tf, tv)) =
      .ok ⟨2, crs, fields ++ [(tf, QVarType.qint)],
        [⟨A, attrs ++ [tv]⟩, ⟨P \ A, attrs ++ [0]⟩]⟩ := by
  have hAP : A ∩ P = A := Finset.inter_eq_left.mpr hsub
  have hPA : P ∩ A = A := Finset.inter_eq_right.mpr hsub
  have hAne : A ≠ ∅ := Finset.nonempty_iff_ne_empty.mp hne
  have hAdP : A \ P = ∅ := Finset.sdiff_eq_empty_iff_subset.mpr hsub
  have hPdA : P \ A ≠ ∅ := fun hcon =>
    hneq (Finset.Subset.antisymm hsub (Finset.sdiff_eq_empty_iff_subset.mp hcon))
  have hresolved := fieldNameIndex_append_self fields tf QVarType.qint hfield
  have hint : cellEngine.intersects P A = true := by
    show decide (P ∩ A ≠ ∅) = true
    rw [hPA]
    exact decide_eq_true hAne
  have hcol1 : cellEngine.asGeometryCollection (cellEngine.intersection A P) = [A] := by
    show (if A ∩ P = ∅ then ([] : List CellGeom) else [A ∩ P]) = [A]
    rw [hAP, if_neg hAne]
  have hcol2 : cellEngine.asGeometryCollection (cellEngine.symDifference A P) = [P \ A] := by
    show (if (A \ P) ∪ (P \ A) = ∅ then ([] : List CellGeom) else [(A \ P) ∪ (P \ A)]) = [P \ A]
    rw [hAdP, Finset.empty_union, if_neg hPdA]
  have hgt : ∀ g : CellGeom, cellEngine.gtype g = 2 := fun _ => rfl
  have hupd1 : _update_attr_list attrs fields.length tv true = .ok (attrs ++ [tv]) := by
    rw [_update_attr_list, if_pos rfl]
  have hupd2 : _update_attr_list attrs fields.length 0 true = .ok (attrs ++ [0]) := by
    rw [_update_attr_list, if_pos rfl]
  have hfil : List.filter (fun _ => true) [(⟨A, attrs⟩ : QgsFeature CellGeom)] =
      [⟨A, attrs⟩] := rfl
  simp only [split_by_polygon, hfield, Option.isNone_none, if_pos rfl, hresolved,
    hfil, split_features, split_feature, hint, hcol1, hcol2, emit_inside,
    emit_outside, hgt, hupd1, hupd2, if_true]
  simp

/-- C6 amended witness: the unit cell strictly inside a two-cell polygon
yields the inside part and the one-cell outside remainder. -/
theorem split_fully_inside_polygon_feature_witness :
    split_by_polygon cellEngine
        ⟨2, "crs", [("a", QVarType.qother)], [⟨{((0:ℤ),(0:ℤ))}, [7]⟩]⟩
        {((0:ℤ),(0:ℤ)), ((1:ℤ),(0:ℤ))} (fun _ => true) (some ("m", 5)) =
      .ok ⟨2, "crs", [("a", QVarType.qother)] ++ [("m", QVarType.qint)],
        [⟨{((0:ℤ),(0:ℤ))}, [7] ++ [5]⟩,
         ⟨({((0:ℤ),(0:ℤ)), ((1:ℤ),(0:ℤ))} : CellGeom) \ {((0:ℤ),(0:ℤ))}, [7] ++ [0]⟩]⟩ :=
  split_fully_inside_polygon_feature {((0:ℤ),(0:ℤ))}
    {((0:ℤ),(0:ℤ)), ((1:ℤ),(0:ℤ))} "crs" [("a", QVarType.qother)] [7] "m" 5
    (by decide) (by decide) (by decide) (by decide)
